import Mathlib

/-!
Shallow embedding of `src/app.py` (Spotify playlist analyser).

The Python program is a linear pipeline:
  credentials → OAuth session → playlist listing → track pagination →
  genre enrichment (batched artist lookup + join) → aggregation/presentation.

We model the data the code manipulates with explicit `Option` fields for
dictionary entries that may be absent/null, and we model Python truthiness
tests (`if a.get("id")`) explicitly: `None` and the empty string are falsy.
Network calls are modelled by oracle functions packaged in small structures;
pandas column arithmetic is modelled over `ℚ` (exact rationals standing in
for the float column values; every claim below only evaluates arithmetic
whose float result is exact or whose rounding is far from a tie).
-/

/-- Python truthiness filter on an optional string: `a.get(k)` used in an
`if` position keeps the value only when it is present and non-empty. -/
def pyTruthy (o : Option String) : Option String :=
  match o with
  | none => none
  | some s => if s = "" then none else some s

/-- One artist object inside a track payload: `{id, name}`, either possibly
null/absent. -/
structure ArtistPayload where
  id : Option String
  name : Option String
deriving Repr, DecidableEq

/-- The track payload of one playlist item (`item["track"]`): `None` track
payloads are represented at the use site as `Option TrackPayload`. -/
structure TrackPayload where
  id : Option String
  name : Option String
  artists : List ArtistPayload
  albumName : Option String
  duration_ms : Option Int
  popularity : Option Int
deriving Repr, DecidableEq

/-- One page of `sp.playlist_tracks` / `sp.next`: the `items` list (each item
holding a possibly-null `track` payload) and whether a `next` cursor is
reported. -/
structure TracksPage where
  items : List (Option TrackPayload)
  next : Bool
deriving Repr, DecidableEq

/-- The record appended for each non-null track payload in
`fetch_playlist_tracks` (src/app.py lines 72-82). -/
structure Track where
  id : Option String
  name : Option String
  artist : String
  artist_ids : List String
  album : Option String
  duration_ms : Option Int
  popularity : Option Int
deriving Repr, DecidableEq

/-- Builds one `Track` dict from a non-null track payload, mirroring
src/app.py lines 68-82: names and ids are both filtered by Python
truthiness (`if a.get("name")`, `if a.get("id")`), names are joined with
", ". -/
def mkTrack (t : TrackPayload) : Track :=
  { id := t.id
    name := t.name
    artist := ", ".intercalate (t.artists.filterMap (fun a => pyTruthy a.name))
    artist_ids := t.artists.filterMap (fun a => pyTruthy a.id)
    album := t.albumName
    duration_ms := t.duration_ms
    popularity := t.popularity }

/-- The pagination loop of `fetch_playlist_tracks` (src/app.py lines 58-89):
the service's successive pages are given as a list; the loop processes the
current page's items (skipping null track payloads, `if not track: continue`)
and follows the `next` cursor while one is reported. -/
def fetch_playlist_tracks : List TracksPage → List Track
  | [] => []
  | p :: rest =>
      p.items.filterMap (fun it => it.map mkTrack) ++
        (if p.next then fetch_playlist_tracks rest else [])

/-- A well-formed service page sequence: every page except the last reports a
`next` cursor and the last page reports none (the service's pagination
contract). -/
def pagesChained : List TracksPage → Prop
  | [] => True
  | [p] => p.next = false
  | p :: q :: rest => p.next = true ∧ pagesChained (q :: rest)

/-- The artist-lookup service consumed by `add_genres_if_available`:
`failsBatch b = true` models `sp.artists(b)` raising a `SpotifyException`
(an HTTP-level rejection); `artistObj aid` is the artist object the service
returns for id `aid` in a successful batch — `none` models a null artist
object (skipped by the loop at src/app.py lines 127-133), `some gs` an
artist whose `genres` field normalises to the list `gs`
(`artist.get("genres", []) or []`). -/
structure ArtistService where
  failsBatch : List String → Bool
  artistObj : String → Option (List String)

/-- Fuel-driven worker for the batch slicing: while fuel and elements
remain, take the next `k+1` elements as one chunk. The fuel only bounds
the recursion depth; every call supplies at least the list's length. -/
def chunksGo (k : Nat) : Nat → List String → List (List String)
  | _, [] => []
  | 0, _ :: _ => []
  | fuel + 1, x :: xs => (x :: xs.take k) :: chunksGo k fuel (xs.drop k)

/-- Slices a list into chunks of at most `k+1` elements, mirroring
`artist_ids_list[start : start + batch_size]` for `start` in
`range(0, len, batch_size)` with `batch_size = k+1`. -/
def chunksOf (k : Nat) (l : List String) : List (List String) :=
  chunksGo k l.length l

/-- The batches of size ≤ 50 used for `sp.artists` calls
(src/app.py lines 113-116). -/
def batches50 (ids : List String) : List (List String) := chunksOf 49 ids

/-- The `genres_map` entries contributed by one successful batch: one
entry per non-null returned artist object. -/
def batchEntries (svc : ArtistService) (batch : List String) :
    List (String × List String) :=
  batch.filterMap (fun aid => (svc.artistObj aid).map (fun gs => (aid, gs)))

/-- The `genres_map` dict built by the batch loop (src/app.py lines
115-133), as an association list: a failed batch contributes nothing (the
`except` arm warns and `continue`s), a successful batch contributes one
entry per non-null returned artist that has an id. -/
def buildGenresMap (svc : ArtistService) (bs : List (List String)) :
    List (String × List String) :=
  bs.foldl
    (fun m batch =>
      if svc.failsBatch batch then m
      else m ++ batch.filterMap (fun aid => (svc.artistObj aid).map (fun gs => (aid, gs))))
    []

/-- `genres_map.get(aid, [])`: dictionary lookup with default `[]`. -/
def lookupGenres (m : List (String × List String)) (aid : String) : List String :=
  match m.find? (fun p => p.1 = aid) with
  | some p => p.2
  | none => []

/-- Boolean code-point lexicographic comparison on character lists: the
order Python uses when sorting strings (`[] ≤ l`, otherwise compare the
heads' code points and recurse on a tie). -/
def leChars : List Char → List Char → Bool
  | [], _ => true
  | _ :: _, [] => false
  | a :: as, b :: bs =>
      if a.toNat < b.toNat then true
      else if b.toNat < a.toNat then false
      else leChars as bs

/-- Code-point lexicographic `≤` on strings (Python's string order). -/
def strLe (a b : String) : Prop := leChars a.data b.data = true

instance : DecidableRel strLe :=
  fun a b => inferInstanceAs (Decidable (leChars a.data b.data = true))

/-- `sorted(set(collected))`: the ascending duplicate-free listing of a
list's elements in Python's code-point string order. -/
def sortedSet (l : List String) : List String :=
  List.insertionSort strLe l.dedup

/-- `join_genres` (src/app.py lines 135-146): `None` for an empty id row,
otherwise collect every artist's genre list (missing artists contribute
`[]`), `None` if nothing was collected, else the sorted deduplicated
", "-join. -/
def join_genres (m : List (String × List String)) (row : List String) :
    Option String :=
  if row.isEmpty then none
  else
    let collected := row.flatMap (fun aid => lookupGenres m aid)
    if collected.isEmpty then none
    else some (", ".intercalate (sortedSet collected))

/-- The `tracks` sub-object of a playlist item; its `total` field may be
absent. -/
structure TracksObj where
  total : Option Int
deriving Repr, DecidableEq

/-- One element of `sp.current_user_playlists(limit=50)["items"]`; every
field may be absent (dictionary `get` with a default is used on each). -/
structure PlaylistItem where
  id : Option String
  name : Option String
  tracks : Option TracksObj
deriving Repr, DecidableEq

/-- The summary dict built per playlist (src/app.py lines 48-54). -/
structure PlaylistSummary where
  id : Option String
  name : Option String
  tracks_total : Int
deriving Repr, DecidableEq

/-- `{"id": item.get("id"), "name": item.get("name"), "tracks_total":
item.get("tracks", {}).get("total", 0)}`: absent nested fields default to
`{}` and `0`, so the mapping is total. -/
def mkPlaylistSummary (item : PlaylistItem) : PlaylistSummary :=
  { id := item.id
    name := item.name
    tracks_total := ((item.tracks.getD ⟨none⟩).total).getD 0 }

/-- `sp.current_user_playlists(limit=50)`: the service returns at most the
first `limit` of the user's playlists; no further page is requested. -/
def current_user_playlists (allItems : List PlaylistItem) (limit : Nat) :
    List PlaylistItem :=
  allItems.take limit

/-- `fetch_playlists` (src/app.py lines 44-55): one summary per item of the
single `limit=50` response. -/
def fetch_playlists (allItems : List PlaylistItem) : List PlaylistSummary :=
  (current_user_playlists allItems 50).map mkPlaylistSummary

/-- Round a rational to the nearest integer, ties to even — the rounding of
pandas `.round` (the pipeline never hits a tie, so the tie rule is
unobservable in the claims below). -/
def roundHalfEven (q : ℚ) : ℤ :=
  if q - (⌊q⌋ : ℚ) < 1 / 2 then ⌊q⌋
  else if 1 / 2 < q - (⌊q⌋ : ℚ) then ⌊q⌋ + 1
  else if ⌊q⌋ % 2 = 0 then ⌊q⌋ else ⌊q⌋ + 1

/-- `.round(2)`: round to 2 decimal places. -/
def round2 (q : ℚ) : ℚ := (roundHalfEven (q * 100) : ℚ) / 100

/-- The `duration_min` cell for one track:
`(df["duration_ms"] / 60000).round(2)`, null propagating. -/
def durationMin (t : Track) : Option ℚ :=
  t.duration_ms.map (fun ms => round2 ((ms : ℚ) / 60000))

/-- The enriched row: the track's columns plus `duration_min` and `genre`;
the `artist_ids` column is dropped (src/app.py lines 150-151). -/
structure EnrichedTrack where
  id : Option String
  name : Option String
  artist : String
  album : Option String
  duration_ms : Option Int
  popularity : Option Int
  duration_min : Option ℚ
  genre : Option String
deriving Repr, DecidableEq

/-- Builds one enriched row from a track row and its genre cell. -/
def enrichRow (g : Option String) (t : Track) : EnrichedTrack :=
  { id := t.id
    name := t.name
    artist := t.artist
    album := t.album
    duration_ms := t.duration_ms
    popularity := t.popularity
    duration_min := durationMin t
    genre := g }

/-- The distinct non-falsy artist ids across all tracks
(`{aid for sub in artist_id_lists for aid in sub if aid}`), listed in
first-appearance order; Python's set iteration order is arbitrary, which is
why order-independence of the result (claim C9) matters. -/
def distinctArtistIds (tracks : List Track) : List String :=
  ((tracks.map Track.artist_ids).flatten.filter (fun aid => aid ≠ "")).dedup

/-- Core of `add_genres_if_available` (src/app.py lines 92-153),
parameterised by the enumeration order of the distinct artist id set:
if the set is empty the genre column is `None` and no batch is requested
(the early return at lines 107-109); otherwise the batch loop builds
`genres_map` and `join_genres` is applied per row. The second component is
the list of `sp.artists` batch calls issued. -/
def add_genres_core (svc : ArtistService) (order : List String)
    (tracks : List Track) : List EnrichedTrack × List (List String) :=
  if order.isEmpty then (tracks.map (enrichRow none), [])
  else
    let bs := batches50 order
    let m := buildGenresMap svc bs
    (tracks.map (fun t => enrichRow (join_genres m t.artist_ids) t), bs)

/-- `add_genres_if_available` as called by `main`: the distinct artist id
set is enumerated (here in first-appearance order, standing in for Python's
arbitrary set order) and the core runs. -/
def add_genres_if_available (svc : ArtistService) (tracks : List Track) :
    List EnrichedTrack × List (List String) :=
  add_genres_core svc (distinctArtistIds tracks) tracks

/-- pandas `Series.sum()` with its default `skipna=True`, `min_count=0`:
null cells are dropped and the empty sum is `0` — the result is never a
missing value, whatever the column holds. -/
def pandasSum (col : List (Option ℚ)) : Option ℚ :=
  some ((col.filterMap id).foldr (· + ·) 0)

/-- Left-pad to two digits, for the fractional part of a 2-decimal float
format. -/
def pad2 (n : Nat) : String :=
  if n < 10 then "0" ++ toString n else toString n

/-- Python's `f"{x:.2f}"` on an exactly-represented value: round to 2
decimals (ties to even) and print with exactly two fractional digits. -/
def formatF2 (q : ℚ) : String :=
  let n : ℤ := roundHalfEven (q * 100)
  let a : Nat := n.natAbs
  (if n < 0 then "-" else "") ++ toString (a / 100) ++ "." ++ pad2 (a % 100)

/-- The "Total length (hours)" metric of `main` (src/app.py lines 198 and
204-208): `total_minutes = df["duration_min"].sum()` (which pandas never
reports as missing), then `f"{(total_minutes / 60):.2f}" if
pd.notna(total_minutes) else "N/A"`. -/
def totalLengthDisplay (df : List EnrichedTrack) : String :=
  match pandasSum (df.map EnrichedTrack.duration_min) with
  | some v => formatF2 (v / 60)
  | none => "N/A"

/-- The selection label rendered for one playlist:
`f"{p['name']} ({p['tracks_total']} tracks)"` (a null name prints as
"None"). -/
def label (p : PlaylistSummary) : String :=
  (match p.name with | some s => s | none => "None") ++ " (" ++
    toString p.tracks_total ++ " tracks)"

/-- Python's `list.index`: the first position holding the value, `none`
when absent (where Python raises `ValueError`). -/
def listIndex? (choice : String) : List String → Option Nat
  | [] => none
  | l :: rest => if l = choice then some 0 else (listIndex? choice rest).map (· + 1)

/-- `playlists[labels.index(choice)]` (src/app.py lines 179-182):
`list.index` returns the FIRST position of the chosen label (and raises
`ValueError`, here `none`, when the label is absent — unreachable through
the selection widget). -/
def selectPlaylist (playlists : List PlaylistSummary) (choice : String) :
    Option PlaylistSummary :=
  match listIndex? choice (playlists.map label) with
  | some i => playlists[i]?
  | none => none

/-- The result of a Python call that may raise: `ok` a value or `exn` an
exception (carrying its message). -/
inductive PyResult (α : Type) where
  | ok (a : α)
  | exn (msg : String)
deriving Repr, DecidableEq

/-- How one run of `main` ends, as observable from the script itself:
`stopped msg` is an `st.error`/`st.warning`/`st.info` followed by
`st.stop()` (the script ends cleanly with a message); `uncaught msg` is an
exception escaping `main` (nothing in `main` catches it — whatever happens
next is the hosting framework's business, not this code's);
`rendered df totalDisplay` is the happy path reaching the summary metrics
and charts. -/
inductive Outcome where
  | stopped (msg : String)
  | uncaught (msg : String)
  | rendered (df : List EnrichedTrack) (totalDisplay : String)
deriving Repr, DecidableEq

/-- The external world one run of `main` interacts with: configuration and
the results of each network call in program order. -/
structure SpotifyEnv where
  credsPresent : Bool
  authOk : Bool
  currentUser : PyResult (Option String)
  userPlaylists : PyResult (List PlaylistItem)
  choice : String
  playlistTracks : PyResult (List TracksPage)
  artistSvc : ArtistService

/-- `main` (src/app.py lines 156-250), step by step.  The ONLY
`try`/`except` in `main` wraps the `sp_user.current_user()` profile fetch
(lines 166-172); `fetch_playlists`, `fetch_playlist_tracks` and the
aggregation run bare, so an exception there escapes `main`.  The
`SpotifyException`s of the artist batch loop are caught inside
`add_genres_if_available` and are represented by `artistSvc.failsBatch`,
not by an `exn`. -/
def mainModel (env : SpotifyEnv) : Outcome :=
  if !(env.credsPresent && env.authOk) then
    Outcome.stopped "Spotify credentials missing / could not authenticate"
  else
    match env.currentUser with
    | PyResult.exn e => Outcome.stopped ("Could not fetch user profile: " ++ e)
    | PyResult.ok _ =>
      match env.userPlaylists with
      | PyResult.exn e => Outcome.uncaught e
      | PyResult.ok items =>
        let playlists := fetch_playlists items
        if playlists.isEmpty then
          Outcome.stopped "No playlists found on this account."
        else
          match selectPlaylist playlists env.choice with
          | none => Outcome.uncaught "ValueError: label is not in list"
          | some _ =>
            match env.playlistTracks with
            | PyResult.exn e => Outcome.uncaught e
            | PyResult.ok pages =>
              let tracks := fetch_playlist_tracks pages
              if tracks.isEmpty then
                Outcome.stopped "This playlist has no tracks"
              else
                let df := (add_genres_if_available env.artistSvc tracks).1
                Outcome.rendered df (totalLengthDisplay df)


/-- The multiset of genre tags collected for one row of artist ids
(`collected` inside `join_genres`): each id contributes its genre list in
the index, absent ids contribute `[]`. -/
def collectedGenres (m : List (String × List String)) (row : List String) :
    List String :=
  row.flatMap (fun aid => lookupGenres m aid)

/-- The claim's reading of the artist id list: "the ids of the artists
that have a non-null id" — written from the spec's words, to be compared
with the code's truthiness-filtered `artist_ids`. -/
def specArtistIds (p : TrackPayload) : List String :=
  p.artists.filterMap ArtistPayload.id

/-- An artist service that never fails and knows no artist (how the
enricher looks to a playlist whose tracks carry no artist ids). -/
def svcNone : ArtistService :=
  { failsBatch := fun _ => false, artistObj := fun _ => none }

/-- A track with no artists and the given duration, for concrete
aggregation scenarios. -/
def trackWithDur (d : Option Int) : Track :=
  { id := none, name := none, artist := "", artist_ids := [], album := none
    duration_ms := d, popularity := none }

/-- The spec's scenario: three tracks with durations [180000, null,
240000] milliseconds. -/
def scenarioTracks : List Track :=
  [trackWithDur (some 180000), trackWithDur none, trackWithDur (some 240000)]

/-- Three tracks all of whose durations are null. -/
def allNullTracks : List Track :=
  [trackWithDur none, trackWithDur none, trackWithDur none]

/-- A run in which configuration, authentication, the profile fetch and the
playlist listing all succeed, a playlist is selected, and then the
track-page fetch raises. -/
def envTrackFetchFails : SpotifyEnv :=
  { credsPresent := true
    authOk := true
    currentUser := PyResult.ok (some "user")
    userPlaylists := PyResult.ok [⟨some "pl1", some "My playlist", some ⟨some 2⟩⟩]
    choice := "My playlist (2 tracks)"
    playlistTracks := PyResult.exn "SpotifyException: could not fetch tracks page"
    artistSvc := svcNone }

/-- A run that is healthy up to the playlist listing, which returns zero
playlists. -/
def envNoPlaylists : SpotifyEnv :=
  { credsPresent := true
    authOk := true
    currentUser := PyResult.ok (some "user")
    userPlaylists := PyResult.ok []
    choice := ""
    playlistTracks := PyResult.ok []
    artistSvc := svcNone }

/-- A first track payload for concrete pagination runs. -/
def payloadA : TrackPayload :=
  { id := some "t1", name := some "Song A", artists := [⟨some "a", some "Alice"⟩]
    albumName := some "Album A", duration_ms := some 180000, popularity := some 50 }

/-- A second track payload for concrete pagination runs. -/
def payloadB : TrackPayload :=
  { id := some "t2", name := some "Song B", artists := [⟨some "b", some "Bob"⟩]
    albumName := some "Album B", duration_ms := some 240000, popularity := some 60 }

/-- Two service pages: the first holds a track and a removed (null) entry
and reports a next cursor, the second holds one track and reports none. -/
def pagesEx : List TracksPage :=
  [⟨[some payloadA, none], true⟩, ⟨[some payloadB], false⟩]

/-- 51 distinct artist ids, so that the batch partition has two batches
(50 + 1). -/
def manyIds : List String :=
  (List.range 50).map (fun n => "x" ++ toString n) ++ ["bad"]

/-- A service that rejects exactly the batches containing the id "bad" and
knows a genre list for every artist. -/
def svcPart : ArtistService :=
  { failsBatch := fun b => decide ("bad" ∈ b)
    artistObj := fun aid => if aid = "bad" then some ["metal"] else some ["rock"] }

/-- A track referencing only the artist "x0" (which sits in the first,
successful batch of `manyIds`). -/
def trackX0 : Track :=
  { id := some "t", name := some "S", artist := "X0", artist_ids := ["x0"]
    album := none, duration_ms := none, popularity := none }

/-- A service with no failures knowing two artists, for small concrete
runs. -/
def svcAB : ArtistService :=
  { failsBatch := fun _ => false
    artistObj := fun aid =>
      if aid = "a" then some ["rock"]
      else if aid = "b" then some ["pop", "rock"] else none }

/-- Two playlist items, the second with every field missing. -/
def itemsEx : List PlaylistItem :=
  [⟨some "p1", some "A", some ⟨some 5⟩⟩, ⟨none, none, none⟩]

/-- A track payload whose single artist has the empty string as id: a
non-null id that Python truthiness treats as missing. -/
def payloadEmptyId : TrackPayload :=
  { id := some "t1", name := some "Song", artists := [⟨some "", some "X"⟩]
    albumName := none, duration_ms := none, popularity := none }

/-- Two playlists that render to the same selection label. -/
def dupPlaylists : List PlaylistSummary :=
  [⟨some "first", some "P", 2⟩, ⟨some "second", some "P", 2⟩]

/-! ## Order lemmas for the code-point string order -/

theorem leChars_trans (x : List Char) :
    ∀ y z, leChars x y = true → leChars y z = true → leChars x z = true := by
  induction x with
  | nil => intro y z _ _; rfl
  | cons a as ih =>
    intro y z hxy hyz
    cases y with
    | nil => simp [leChars] at hxy
    | cons b bs =>
      cases z with
      | nil => simp [leChars] at hyz
      | cons c cs =>
        simp only [leChars] at hxy hyz ⊢
        by_cases hab : a.toNat < b.toNat
        · by_cases hbc : b.toNat < c.toNat
          · simp [Nat.lt_trans hab hbc]
          · by_cases hcb : c.toNat < b.toNat
            · simp [hbc, hcb] at hyz
            · have hac : a.toNat < c.toNat := by omega
              simp [hac]
        · by_cases hba : b.toNat < a.toNat
          · simp [hab, hba] at hxy
          · simp only [if_neg hab, if_neg hba] at hxy
            by_cases hbc : b.toNat < c.toNat
            · have hac : a.toNat < c.toNat := by omega
              simp [hac]
            · by_cases hcb : c.toNat < b.toNat
              · simp [hbc, hcb] at hyz
              · simp only [if_neg hbc, if_neg hcb] at hyz
                have h1 : ¬ a.toNat < c.toNat := by omega
                have h2 : ¬ c.toNat < a.toNat := by omega
                simp only [if_neg h1, if_neg h2]
                exact ih bs cs hxy hyz

theorem leChars_total (x : List Char) :
    ∀ y, leChars x y = true ∨ leChars y x = true := by
  induction x with
  | nil => intro y; left; rfl
  | cons a as ih =>
    intro y
    cases y with
    | nil => right; rfl
    | cons b bs =>
      simp only [leChars]
      by_cases hab : a.toNat < b.toNat
      · left; simp [hab]
      · by_cases hba : b.toNat < a.toNat
        · right; simp [hba]
        · rcases ih bs with h | h
          · left; simp [hab, hba, h]
          · right; simp [hab, hba, h]

theorem leChars_antisymm (x : List Char) :
    ∀ y, leChars x y = true → leChars y x = true → x = y := by
  induction x with
  | nil =>
    intro y _ h2
    cases y with
    | nil => rfl
    | cons b bs => simp [leChars] at h2
  | cons a as ih =>
    intro y h1 h2
    cases y with
    | nil => simp [leChars] at h1
    | cons b bs =>
      simp only [leChars] at h1 h2
      by_cases hab : a.toNat < b.toNat
      · have hba : ¬ b.toNat < a.toNat := by omega
        simp [hab, hba] at h2
      · by_cases hba : b.toNat < a.toNat
        · simp [hab, hba] at h1
        · have ea : a.toNat = a.val.toBitVec.toNat := rfl
          have eb : b.toNat = b.val.toBitVec.toNat := rfl
          have heq : a = b :=
            Char.eq_of_val_eq (UInt32.eq_of_toBitVec_eq (BitVec.eq_of_toNat_eq (by omega)))
          simp only [if_neg hab, if_neg hba] at h1 h2
          rw [heq, ih bs h1 h2]

theorem strLe_trans (a b c : String) : strLe a b → strLe b c → strLe a c :=
  fun h1 h2 => leChars_trans a.data b.data c.data h1 h2

theorem strLe_total (a b : String) : strLe a b ∨ strLe b a :=
  leChars_total a.data b.data

theorem strLe_antisymm (a b : String) : strLe a b → strLe b a → a = b := by
  intro h1 h2
  have hd : a.data = b.data := leChars_antisymm a.data b.data h1 h2
  exact congrArg String.mk hd

/-! ## Properties of `sortedSet` (the code's `sorted(set(...))`) -/

theorem sortedSet_sorted (l : List String) : List.Sorted strLe (sortedSet l) := by
  haveI : IsTotal String strLe := ⟨strLe_total⟩
  haveI : IsTrans String strLe := ⟨strLe_trans⟩
  exact List.sorted_insertionSort strLe l.dedup

theorem sortedSet_perm_dedup (l : List String) : (sortedSet l).Perm l.dedup :=
  List.perm_insertionSort strLe l.dedup

theorem sortedSet_nodup (l : List String) : (sortedSet l).Nodup :=
  (sortedSet_perm_dedup l).nodup_iff.mpr l.nodup_dedup

theorem mem_sortedSet (l : List String) (g : String) :
    g ∈ sortedSet l ↔ g ∈ l := by
  rw [(sortedSet_perm_dedup l).mem_iff, List.mem_dedup]

theorem sortedSet_eq_of_perm (l l' : List String) (h : l.Perm l') :
    sortedSet l = sortedSet l' := by
  haveI : IsAntisymm String strLe := ⟨strLe_antisymm⟩
  exact List.eq_of_perm_of_sorted
    ((sortedSet_perm_dedup l).trans (h.dedup.trans (sortedSet_perm_dedup l').symm))
    (sortedSet_sorted l) (sortedSet_sorted l')

/-! ## The genre join (claim C1) -/

theorem collectedGenres_perm (m : List (String × List String))
    {row row' : List String} (h : row.Perm row') :
    (collectedGenres m row).Perm (collectedGenres m row') :=
  h.flatMap_right _


/-- `join_genres` rewritten with propositional conditions. -/
theorem join_genres_eq (m : List (String × List String)) (row : List String) :
    join_genres m row =
      if row = [] then none
      else if collectedGenres m row = [] then none
      else some (", ".intercalate (sortedSet (collectedGenres m row))) := by
  unfold join_genres collectedGenres
  by_cases hr : row = []
  · simp [hr]
  · rw [if_neg (by simpa [List.isEmpty_iff] using hr), if_neg hr]
    by_cases hc : row.flatMap (fun aid => lookupGenres m aid) = []
    · rw [if_pos (by simpa [List.isEmpty_iff] using hc), if_pos hc]
    · rw [if_neg (by simpa [List.isEmpty_iff] using hc), if_neg hc]

theorem join_genres_eq_of_perm (m : List (String × List String))
    (row row' : List String) (h : row.Perm row') :
    join_genres m row = join_genres m row' := by
  have hp : (collectedGenres m row).Perm (collectedGenres m row') :=
    collectedGenres_perm m h
  rw [join_genres_eq, join_genres_eq]
  by_cases hr : row = []
  · subst hr
    rw [h.nil_eq]
  · have hr' : row' ≠ [] := by
      intro e
      exact hr (by simpa [e] using h.length_eq)
    rw [if_neg hr, if_neg hr']
    by_cases hc : collectedGenres m row = []
    · have hc' : collectedGenres m row' = [] := by
        have hl := hp.length_eq
        rw [hc] at hl
        exact List.length_eq_zero.mp hl.symm
      rw [if_pos hc, if_pos hc']
    · have hc' : collectedGenres m row' ≠ [] := by
        intro e
        exact hc (by simpa [e] using hp.length_eq)
      rw [if_neg hc, if_neg hc', sortedSet_eq_of_perm _ _ hp]

/-- C1: for every artist-genre index and every track row, the genre field
is the code-point-ascending sorted, duplicate-free ", "-join of the union
of the genre lists of the row's artist ids; it is null exactly when the
row is empty or that union is empty; and any reordering of the row yields
the same genre string. -/
theorem C1_genre_is_sorted_dedup_union (m : List (String × List String))
    (row row' : List String) (h : row.Perm row') :
    join_genres m row = join_genres m row' ∧
    (join_genres m row = none ↔ row = [] ∨ collectedGenres m row = []) ∧
    (∀ s, join_genres m row = some s →
      ∃ gl : List String, s = ", ".intercalate gl ∧
        List.Sorted strLe gl ∧ gl.Nodup ∧
        (∀ g, g ∈ gl ↔ g ∈ collectedGenres m row)) := by
  refine ⟨join_genres_eq_of_perm m row row' h, ?_, ?_⟩
  · rw [join_genres_eq]
    by_cases hr : row = []
    · simp [hr]
    · rw [if_neg hr]
      by_cases hc : collectedGenres m row = []
      · simp [hc, hr]
      · simp [hc, hr]
  · intro s hs
    rw [join_genres_eq] at hs
    by_cases hr : row = []
    · rw [if_pos hr] at hs
      exact absurd hs (by simp)
    · rw [if_neg hr] at hs
      by_cases hc : collectedGenres m row = []
      · rw [if_pos hc] at hs
        exact absurd hs (by simp)
      · rw [if_neg hc] at hs
        refine ⟨sortedSet (collectedGenres m row), ?_,
          sortedSet_sorted _, sortedSet_nodup _, fun g => mem_sortedSet _ g⟩
        exact (Option.some_inj.mp hs).symm

/-- Witness for C1: a concrete index, a concrete row and a reordering of
it. -/
theorem C1_witness :
    join_genres [("a", ["rock"]), ("b", ["pop", "rock"])] ["b", "a"] =
      join_genres [("a", ["rock"]), ("b", ["pop", "rock"])] ["a", "b"] ∧
    join_genres [("a", ["rock"]), ("b", ["pop", "rock"])] ["b", "a"] =
      some "pop, rock" :=
  ⟨(C1_genre_is_sorted_dedup_union [("a", ["rock"]), ("b", ["pop", "rock"])]
      ["b", "a"] ["a", "b"] (by decide)).1, by decide⟩

/-! ## Early return on an empty artist id set (claim C8) -/

/-- C8: when the set of distinct non-null artist ids over all tracks is
empty, the enricher sets the genre cell to null on every row and issues no
`sp.artists` batch call at all. -/
theorem C8_empty_ids_no_network (svc : ArtistService) (tracks : List Track)
    (h : distinctArtistIds tracks = []) :
    (add_genres_if_available svc tracks).2 = [] ∧
    (add_genres_if_available svc tracks).1 = tracks.map (enrichRow none) ∧
    ∀ e ∈ (add_genres_if_available svc tracks).1, e.genre = none := by
  have hmain : add_genres_if_available svc tracks = (tracks.map (enrichRow none), []) := by
    unfold add_genres_if_available add_genres_core
    rw [h]
    rfl
  refine ⟨by rw [hmain], by rw [hmain], ?_⟩
  rw [hmain]
  intro e he
  obtain ⟨t, _, rfl⟩ := List.mem_map.mp he
  rfl

/-- Witness for C8: a one-track playlist whose track has no artist ids. -/
theorem C8_witness :
    (add_genres_if_available svcNone [trackWithDur (some 180000)]).2 = [] :=
  (C8_empty_ids_no_network svcNone [trackWithDur (some 180000)] (by decide)).1

/-! ## Pagination and per-row enrichment preserve count and order (claim C3) -/

theorem filterMap_map_mkTrack (items : List (Option TrackPayload)) :
    items.filterMap (fun it => it.map mkTrack) = (items.filterMap id).map mkTrack := by
  induction items with
  | nil => rfl
  | cons it rest ih => cases it <;> simp [ih]

theorem length_filterMap_id (items : List (Option TrackPayload)) :
    (items.filterMap id).length = items.countP (fun it => it.isSome) := by
  induction items with
  | nil => rfl
  | cons it rest ih => cases it <;> simp [List.countP_cons, ih]

theorem fetch_playlist_tracks_cons (p : TracksPage) (rest : List TracksPage) :
    fetch_playlist_tracks (p :: rest) =
      p.items.filterMap (fun it => it.map mkTrack) ++
        (if p.next then fetch_playlist_tracks rest else []) := rfl

theorem fetch_playlist_tracks_eq (pages : List TracksPage)
    (h : pagesChained pages) :
    fetch_playlist_tracks pages =
      ((pages.map TracksPage.items).flatten.filterMap id).map mkTrack := by
  induction pages with
  | nil => rfl
  | cons p rest ih =>
    cases rest with
    | nil =>
      have hn : p.next = false := h
      simp [fetch_playlist_tracks, hn, filterMap_map_mkTrack]
    | cons q rest2 =>
      have h1 : p.next = true := h.1
      have h2 : pagesChained (q :: rest2) := h.2
      rw [fetch_playlist_tracks_cons, h1, ih h2, filterMap_map_mkTrack]
      simp [List.filterMap_append]

theorem add_genres_core_map (svc : ArtistService) (order : List String)
    (tracks : List Track) :
    ∃ f : Track → Option String,
      (add_genres_core svc order tracks).1 = tracks.map (fun t => enrichRow (f t) t) := by
  unfold add_genres_core
  by_cases h : order.isEmpty
  · exact ⟨fun _ => none, by rw [if_pos h]⟩
  · exact ⟨fun t => join_genres (buildGenresMap svc (batches50 order)) t.artist_ids,
      by rw [if_neg h]⟩

/-- C3: under the service's pagination contract, the fetched track list is
exactly one record per non-null item across all pages, in page-and-item
order; and the enricher returns one enriched row per input track, in the
same order (witnessed by the identity of the underlying fields at every
index). -/
theorem C3_one_enriched_per_nonnull_entry (pages : List TracksPage)
    (h : pagesChained pages) (svc : ArtistService) (order : List String) :
    fetch_playlist_tracks pages =
      ((pages.map TracksPage.items).flatten.filterMap id).map mkTrack ∧
    (fetch_playlist_tracks pages).length =
      (pages.map TracksPage.items).flatten.countP (fun it => it.isSome) ∧
    (add_genres_core svc order (fetch_playlist_tracks pages)).1.length =
      (fetch_playlist_tracks pages).length ∧
    ∀ i : Nat, ((add_genres_core svc order (fetch_playlist_tracks pages)).1[i]?.map
            EnrichedTrack.name = (fetch_playlist_tracks pages)[i]?.map Track.name ∧
      (add_genres_core svc order (fetch_playlist_tracks pages)).1[i]?.map
            EnrichedTrack.artist = (fetch_playlist_tracks pages)[i]?.map Track.artist ∧
      (add_genres_core svc order (fetch_playlist_tracks pages)).1[i]?.map
            EnrichedTrack.duration_ms =
        (fetch_playlist_tracks pages)[i]?.map Track.duration_ms) := by
  obtain ⟨f, hf⟩ := add_genres_core_map svc order (fetch_playlist_tracks pages)
  refine ⟨fetch_playlist_tracks_eq pages h, ?_, ?_, ?_⟩
  · rw [fetch_playlist_tracks_eq pages h, List.length_map, length_filterMap_id]
  · rw [hf, List.length_map]
  · intro i
    rw [hf, List.getElem?_map]
    cases (fetch_playlist_tracks pages)[i]? with
    | none => exact ⟨rfl, rfl, rfl⟩
    | some t => exact ⟨rfl, rfl, rfl⟩

/-- Witness for C3 at a concrete two-page playlist with one removed
track. -/
theorem C3_witness :
    (fetch_playlist_tracks pagesEx).length =
      (pagesEx.map TracksPage.items).flatten.countP (fun it => it.isSome) ∧
    (add_genres_core svcAB ["a", "b"] (fetch_playlist_tracks pagesEx)).1.length =
      (fetch_playlist_tracks pagesEx).length :=
  ⟨(C3_one_enriched_per_nonnull_entry pagesEx ⟨rfl, rfl⟩ svcAB ["a", "b"]).2.1,
   (C3_one_enriched_per_nonnull_entry pagesEx ⟨rfl, rfl⟩ svcAB ["a", "b"]).2.2.1⟩

/-! ## The genres map built by the batch loop (claims C4, C9) -/

theorem chunksGo_flatten (k : Nat) :
    ∀ (fuel : Nat) (l : List String), l.length ≤ fuel →
      (chunksGo k fuel l).flatten = l := by
  intro fuel
  induction fuel with
  | zero =>
    intro l hl
    cases l with
    | nil => rfl
    | cons x xs => simp at hl
  | succ f ih =>
    intro l hl
    cases l with
    | nil => rfl
    | cons x xs =>
      have hd : (xs.drop k).length ≤ f := by
        simp only [List.length_drop]
        simp only [List.length_cons] at hl
        omega
      simp [chunksGo, ih (xs.drop k) hd]

theorem flatten_batches50 (ids : List String) : (batches50 ids).flatten = ids :=
  chunksGo_flatten 49 ids.length ids le_rfl

theorem mem_batches50 (ids : List String) (aid : String) :
    (∃ b ∈ batches50 ids, aid ∈ b) ↔ aid ∈ ids := by
  constructor
  · rintro ⟨b, hb, hab⟩
    have h : aid ∈ (batches50 ids).flatten := List.mem_flatten.mpr ⟨b, hb, hab⟩
    rwa [flatten_batches50] at h
  · intro h
    have h2 : aid ∈ (batches50 ids).flatten := by rwa [flatten_batches50]
    exact List.mem_flatten.mp h2

theorem buildGenresMap_eq (svc : ArtistService) (bs : List (List String)) :
    buildGenresMap svc bs =
      bs.flatMap (fun b => if svc.failsBatch b then [] else batchEntries svc b) := by
  suffices h : ∀ acc : List (String × List String),
      bs.foldl (fun m batch =>
        if svc.failsBatch batch then m
        else m ++ batch.filterMap (fun aid => (svc.artistObj aid).map (fun gs => (aid, gs)))) acc =
        acc ++ bs.flatMap (fun b => if svc.failsBatch b then [] else batchEntries svc b) by
    simpa [buildGenresMap] using h []
  induction bs with
  | nil => intro acc; simp
  | cons b rest ih =>
    intro acc
    by_cases hb : svc.failsBatch b
    · simp [hb, ih]
    · simp [hb, ih, batchEntries, List.append_assoc]

theorem buildGenresMap_entry (svc : ArtistService) (bs : List (List String)) :
    ∀ p ∈ buildGenresMap svc bs,
      svc.artistObj p.1 = some p.2 ∧
      ∃ b ∈ bs, svc.failsBatch b = false ∧ p.1 ∈ b := by
  intro p hp
  rw [buildGenresMap_eq] at hp
  obtain ⟨b, hb, hpb⟩ := List.mem_flatMap.mp hp
  by_cases hf : svc.failsBatch b
  · rw [if_pos hf] at hpb
    cases hpb
  · rw [if_neg hf] at hpb
    obtain ⟨aid, haid, hmap⟩ := List.mem_filterMap.mp hpb
    cases hobj : svc.artistObj aid with
    | none => rw [hobj] at hmap; cases hmap
    | some gs =>
      rw [hobj] at hmap
      have hpeq : p = (aid, gs) := by
        simpa using hmap.symm
      subst hpeq
      exact ⟨hobj, b, hb, by simpa using hf, haid⟩

theorem buildGenresMap_hasKey (svc : ArtistService) (bs : List (List String))
    (aid : String) (gs : List String) (hobj : svc.artistObj aid = some gs)
    (hb : ∃ b ∈ bs, svc.failsBatch b = false ∧ aid ∈ b) :
    (aid, gs) ∈ buildGenresMap svc bs := by
  rw [buildGenresMap_eq]
  obtain ⟨b, hbs, hf, haid⟩ := hb
  refine List.mem_flatMap.mpr ⟨b, hbs, ?_⟩
  rw [if_neg (by simp [hf])]
  exact List.mem_filterMap.mpr ⟨aid, haid, by rw [hobj]; rfl⟩

theorem lookupGenres_of_mem (svc : ArtistService) (bs : List (List String))
    (aid : String) (hb : ∃ b ∈ bs, svc.failsBatch b = false ∧ aid ∈ b) :
    lookupGenres (buildGenresMap svc bs) aid = (svc.artistObj aid).getD [] := by
  unfold lookupGenres
  cases hobj : svc.artistObj aid with
  | none =>
    have hnone : (buildGenresMap svc bs).find? (fun p => p.1 = aid) = none := by
      rw [List.find?_eq_none]
      intro p hp hpa
      have h1 := (buildGenresMap_entry svc bs p hp).1
      have hkey : p.1 = aid := by simpa using hpa
      rw [hkey, hobj] at h1
      cases h1
    rw [hnone]
    rfl
  | some gs =>
    have hmem : (aid, gs) ∈ buildGenresMap svc bs :=
      buildGenresMap_hasKey svc bs aid gs hobj hb
    have hsome : ((buildGenresMap svc bs).find? (fun p => p.1 = aid)).isSome := by
      rw [List.find?_isSome]
      exact ⟨(aid, gs), hmem, by simp⟩
    obtain ⟨p, hp⟩ := Option.isSome_iff_exists.mp hsome
    have hpmem := List.mem_of_find?_eq_some hp
    have hpkey : p.1 = aid := by simpa using List.find?_some hp
    have hval := (buildGenresMap_entry svc bs p hpmem).1
    rw [hpkey, hobj] at hval
    rw [hp]
    exact (Option.some_inj.mp hval).symm

theorem lookupGenres_of_not_mem (svc : ArtistService) (bs : List (List String))
    (aid : String) (hb : ∀ b ∈ bs, svc.failsBatch b = false → aid ∉ b) :
    lookupGenres (buildGenresMap svc bs) aid = [] := by
  unfold lookupGenres
  have hnone : (buildGenresMap svc bs).find? (fun p => p.1 = aid) = none := by
    rw [List.find?_eq_none]
    intro p hp hpa
    obtain ⟨b, hbs, hf, hpb⟩ := (buildGenresMap_entry svc bs p hp).2
    have hkey : p.1 = aid := by simpa using hpa
    exact hb b hbs hf (hkey ▸ hpb)
  rw [hnone]

theorem collectedGenres_congr (m₁ m₂ : List (String × List String)) :
    ∀ row : List String,
      (∀ aid ∈ row, lookupGenres m₁ aid = lookupGenres m₂ aid) →
      collectedGenres m₁ row = collectedGenres m₂ row := by
  intro row
  induction row with
  | nil => intro _; rfl
  | cons a as ih =>
    intro h
    unfold collectedGenres at *
    simp only [List.flatMap_cons]
    rw [h a (by simp), ih (fun x hx => h x (by simp [hx]))]

theorem join_genres_congr (m₁ m₂ : List (String × List String)) (row : List String)
    (h : ∀ aid ∈ row, lookupGenres m₁ aid = lookupGenres m₂ aid) :
    join_genres m₁ row = join_genres m₂ row := by
  rw [join_genres_eq, join_genres_eq, collectedGenres_congr m₁ m₂ row h]

/-- C4: an HTTP-rejected artist batch is non-fatal and isolated: every
track all of whose artist ids sit in successful batches gets exactly the
genre string of a failure-free run (the loop continued past the failure),
and each artist id of a failed batch contributes the empty genre list. -/
theorem C4_batch_failure_isolated (svc : ArtistService) (order : List String)
    (tracks : List Track) (hnd : order.Nodup) :
    ((∀ t ∈ tracks, ∀ aid ∈ t.artist_ids,
        ∃ b ∈ batches50 order, svc.failsBatch b = false ∧ aid ∈ b) →
      (add_genres_core svc order tracks).1 =
        (add_genres_core { svc with failsBatch := fun _ => false } order tracks).1) ∧
    (∀ b ∈ batches50 order, svc.failsBatch b = true →
      ∀ aid ∈ b, lookupGenres (buildGenresMap svc (batches50 order)) aid = []) := by
  constructor
  · intro h
    unfold add_genres_core
    by_cases he : order.isEmpty
    · rw [if_pos he, if_pos he]
    · rw [if_neg he, if_neg he]
      dsimp only
      apply List.map_congr_left
      intro t ht
      have hjoin : join_genres (buildGenresMap svc (batches50 order)) t.artist_ids =
          join_genres (buildGenresMap { svc with failsBatch := fun _ => false }
            (batches50 order)) t.artist_ids := by
        apply join_genres_congr
        intro aid haid
        obtain ⟨b, hbmem, hbok, haidb⟩ := h t ht aid haid
        rw [lookupGenres_of_mem svc (batches50 order) aid ⟨b, hbmem, hbok, haidb⟩,
          lookupGenres_of_mem { svc with failsBatch := fun _ => false }
            (batches50 order) aid ⟨b, hbmem, rfl, haidb⟩]
      rw [hjoin]
  · have hfnodup : (batches50 order).flatten.Nodup := by
      rw [flatten_batches50]
      exact hnd
    have hpair := (List.nodup_flatten.mp hfnodup).2
    intro b hb hfail aid haidb
    apply lookupGenres_of_not_mem
    intro b' hb' hfail' haid'
    have hne : b ≠ b' := by
      intro e
      rw [← e] at hfail'
      rw [hfail] at hfail'
      cases hfail'
    have hdisj : List.Disjoint b b' :=
      List.Pairwise.forall (fun x y h => List.Disjoint.symm h) hpair hb hb' hne
    exact hdisj haidb haid'

/-- Witness for C4: 51 distinct ids, partitioned into a successful batch of
50 and a failing singleton batch ["bad"]; a track referencing only the
first batch. -/
theorem C4_witness :
    (add_genres_core svcPart manyIds [trackX0]).1 =
      (add_genres_core { svcPart with failsBatch := fun _ => false } manyIds [trackX0]).1 ∧
    lookupGenres (buildGenresMap svcPart (batches50 manyIds)) "bad" = [] := by
  have H := C4_batch_failure_isolated svcPart manyIds [trackX0] (by decide)
  exact ⟨H.1 (by decide), H.2 ["bad"] (by decide) (by decide) "bad" (by decide)⟩

/-- C9: when every batch lookup succeeds, the enriched rows do not depend
on the enumeration order of the distinct artist id set (so the arbitrary
set iteration order, or concurrent batch fetches, cannot change any genre
string). -/
theorem C9_index_order_irrelevant (svc : ArtistService)
    (hok : ∀ b, svc.failsBatch b = false) (order order' : List String)
    (hperm : order.Perm order') (tracks : List Track) :
    (add_genres_core svc order tracks).1 = (add_genres_core svc order' tracks).1 := by
  unfold add_genres_core
  by_cases he : order.isEmpty
  · have he' : order'.isEmpty := by
      rw [List.isEmpty_iff] at he ⊢
      have h2 := hperm
      rw [he] at h2
      exact h2.nil_eq.symm
    rw [if_pos he, if_pos he']
  · have he' : ¬ order'.isEmpty = true := by
      rw [List.isEmpty_iff] at he ⊢
      intro e
      have h2 := hperm
      rw [e] at h2
      exact he h2.eq_nil
    rw [if_neg he, if_neg he']
    dsimp only
    apply List.map_congr_left
    intro t _
    have hjoin : join_genres (buildGenresMap svc (batches50 order)) t.artist_ids =
        join_genres (buildGenresMap svc (batches50 order')) t.artist_ids := by
      apply join_genres_congr
      intro aid _
      by_cases hin : aid ∈ order
      · have hin' : aid ∈ order' := hperm.mem_iff.mp hin
        obtain ⟨b, hb, hba⟩ := (mem_batches50 order aid).mpr hin
        obtain ⟨b', hb', hba'⟩ := (mem_batches50 order' aid).mpr hin'
        rw [lookupGenres_of_mem svc (batches50 order) aid ⟨b, hb, hok b, hba⟩,
          lookupGenres_of_mem svc (batches50 order') aid ⟨b', hb', hok b', hba'⟩]
      · have hin' : aid ∉ order' := fun e => hin (hperm.mem_iff.mpr e)
        rw [lookupGenres_of_not_mem svc (batches50 order) aid
            (fun b hb _ hba => hin ((mem_batches50 order aid).mp ⟨b, hb, hba⟩)),
          lookupGenres_of_not_mem svc (batches50 order') aid
            (fun b hb _ hba => hin' ((mem_batches50 order' aid).mp ⟨b, hb, hba⟩))]
    rw [hjoin]

/-- Witness for C9: the two enumeration orders of {a, b} on a concrete
service and track. -/
theorem C9_witness :
    (add_genres_core svcAB ["a", "b"]
        [⟨some "t", some "S", "A, B", ["b", "a"], none, some 200000, some 10⟩]).1 =
      (add_genres_core svcAB ["b", "a"]
        [⟨some "t", some "S", "A, B", ["b", "a"], none, some 200000, some 10⟩]).1 :=
  C9_index_order_irrelevant svcAB (fun _ => rfl) ["a", "b"] ["b", "a"]
    (List.Perm.swap "b" "a" [])
    [⟨some "t", some "S", "A, B", ["b", "a"], none, some 200000, some 10⟩]

/-! ## The total-length metric (claim C2) -/

theorem roundHalfEven_intCast (z : ℤ) : roundHalfEven (z : ℚ) = z := by
  unfold roundHalfEven
  rw [Int.floor_intCast]
  norm_num

/-- C2 (evaluation): at the spec's scenario [180000, null, 240000] ms the
null duration is excluded and total_minutes is 7.0, displayed as 0.12
hours; but at an all-null playlist pandas' skipna sum yields 0 and the
metric displays "0.00" — the code's "N/A" branch cannot fire because the
sum is never a missing value — contradicting the claimed "not available"
display. -/
theorem C2_total_minutes_eval :
    pandasSum ((add_genres_if_available svcNone scenarioTracks).1.map
      EnrichedTrack.duration_min) = some 7 ∧
    totalLengthDisplay (add_genres_if_available svcNone scenarioTracks).1 = "0.12" ∧
    pandasSum ((add_genres_if_available svcNone allNullTracks).1.map
      EnrichedTrack.duration_min) = some 0 ∧
    totalLengthDisplay (add_genres_if_available svcNone allNullTracks).1 = "0.00" ∧
    "0.00" ≠ "N/A" := by
  have hadd : (add_genres_if_available svcNone scenarioTracks).1 =
      scenarioTracks.map (enrichRow none) := rfl
  have haddN : (add_genres_if_available svcNone allNullTracks).1 =
      allNullTracks.map (enrichRow none) := rfl
  have r1 : durationMin (trackWithDur (some 180000)) = some (3 : ℚ) := by
    show some (round2 (((180000 : ℤ) : ℚ) / 60000)) = some (3 : ℚ)
    congr 1
    have h : ((180000 : ℤ) : ℚ) / 60000 = ((3 : ℤ) : ℚ) := by norm_num
    rw [round2, h]
    have h2 : ((3 : ℤ) : ℚ) * 100 = ((300 : ℤ) : ℚ) := by norm_num
    rw [h2, roundHalfEven_intCast]
    norm_num
  have r2 : durationMin (trackWithDur (some 240000)) = some (4 : ℚ) := by
    show some (round2 (((240000 : ℤ) : ℚ) / 60000)) = some (4 : ℚ)
    congr 1
    have h : ((240000 : ℤ) : ℚ) / 60000 = ((4 : ℤ) : ℚ) := by norm_num
    rw [round2, h]
    have h2 : ((4 : ℤ) : ℚ) * 100 = ((400 : ℤ) : ℚ) := by norm_num
    rw [h2, roundHalfEven_intCast]
    norm_num
  have r0 : durationMin (trackWithDur none) = none := rfl
  have hmap : (scenarioTracks.map (enrichRow none)).map EnrichedTrack.duration_min =
      [durationMin (trackWithDur (some 180000)), durationMin (trackWithDur none),
        durationMin (trackWithDur (some 240000))] := rfl
  have hsum : pandasSum ((add_genres_if_available svcNone scenarioTracks).1.map
      EnrichedTrack.duration_min) = some 7 := by
    rw [hadd, hmap, r1, r0, r2]
    show some ((3 : ℚ) + (4 + 0)) = some 7
    norm_num
  have hfl : ⌊(35 : ℚ) / 3⌋ = 11 := by
    rw [Int.floor_eq_iff]
    constructor
    · norm_num
    · norm_num
  have hround : roundHalfEven ((35 : ℚ) / 3) = 12 := by
    unfold roundHalfEven
    rw [hfl, if_neg (by norm_num), if_pos (by norm_num)]
    norm_num
  have hdisp : totalLengthDisplay (add_genres_if_available svcNone scenarioTracks).1 =
      "0.12" := by
    unfold totalLengthDisplay
    rw [hsum]
    show formatF2 ((7 : ℚ) / 60) = "0.12"
    unfold formatF2
    have hq : (7 : ℚ) / 60 * 100 = (35 : ℚ) / 3 := by norm_num
    rw [hq, hround]
    decide
  have hmapN : (allNullTracks.map (enrichRow none)).map EnrichedTrack.duration_min =
      [none, none, none] := rfl
  have hsumN : pandasSum ((add_genres_if_available svcNone allNullTracks).1.map
      EnrichedTrack.duration_min) = some 0 := by
    rw [haddN, hmapN]
    rfl
  have hdispN : totalLengthDisplay (add_genres_if_available svcNone allNullTracks).1 =
      "0.00" := by
    unfold totalLengthDisplay
    rw [hsumN]
    show formatF2 ((0 : ℚ) / 60) = "0.00"
    unfold formatF2
    have hq : (0 : ℚ) / 60 * 100 = ((0 : ℤ) : ℚ) := by norm_num
    rw [hq, roundHalfEven_intCast]
    decide
  exact ⟨hsum, hdisp, hsumN, hdispN, by decide⟩

/-! ## What main catches and what escapes it (claim C5) -/

/-- C5 counterexample: in a run where configuration, authentication, the
profile fetch and the playlist listing all succeed and a playlist is
selected, a raising track-page fetch makes `main` end with the exception
escaping it — not with a caught, displayed error. -/
theorem C5_counterexample :
    mainModel envTrackFetchFails =
      Outcome.uncaught "SpotifyException: could not fetch tracks page" := by
  rfl

/-- C5 (amended): only the profile fetch is guarded by a `try`/`except` in
`main`; a profile-fetch failure stops the run with an error message, while
a failing track-page fetch after a successful selection escapes `main`
uncaught (its handling is left to the hosting framework). -/
theorem C5_only_profile_fetch_guarded (env : SpotifyEnv) (e : String)
    (hc : env.credsPresent = true) (ha : env.authOk = true) :
    (env.currentUser = PyResult.exn e →
      mainModel env = Outcome.stopped ("Could not fetch user profile: " ++ e)) ∧
    (∀ u items, env.currentUser = PyResult.ok u →
      env.userPlaylists = PyResult.ok items →
      (fetch_playlists items).isEmpty = false →
      (∃ p, selectPlaylist (fetch_playlists items) env.choice = some p) →
      env.playlistTracks = PyResult.exn e →
      mainModel env = Outcome.uncaught e) := by
  constructor
  · intro hu
    unfold mainModel
    rw [hc, ha, hu]
    rfl
  · rintro u items hu hpl hne ⟨p, hp⟩ ht
    unfold mainModel
    rw [hc, ha, hu, hpl]
    dsimp only
    rw [hne, hp, ht]
    rfl

/-- Witness for C5's amended theorem: both guarded and unguarded failure
at concrete runs. -/
theorem C5_witness :
    mainModel { envTrackFetchFails with currentUser := PyResult.exn "boom" } =
      Outcome.stopped "Could not fetch user profile: boom" ∧
    mainModel envTrackFetchFails =
      Outcome.uncaught "SpotifyException: could not fetch tracks page" := by
  constructor
  · exact (C5_only_profile_fetch_guarded
      { envTrackFetchFails with currentUser := PyResult.exn "boom" } "boom" rfl rfl).1 rfl
  · exact (C5_only_profile_fetch_guarded envTrackFetchFails
      "SpotifyException: could not fetch tracks page" rfl rfl).2 (some "user")
      [⟨some "pl1", some "My playlist", some ⟨some 2⟩⟩] rfl rfl rfl
      ⟨mkPlaylistSummary ⟨some "pl1", some "My playlist", some ⟨some 2⟩⟩, rfl⟩ rfl

/-! ## Playlist listing: cap, defensive mapping, empty outcome (claim C6) -/

/-- C6: the playlist listing maps at most the first 50 service items, each
positionally through the total function `mkPlaylistSummary` whose nested
defaults replace a missing `tracks` object or `total` field by 0; a run
whose listing returns zero playlists stops with the informational
"no playlists" message rather than an exception escaping `main`. -/
theorem C6_listing_cap_defensive_empty (allItems : List PlaylistItem)
    (env : SpotifyEnv) (u : Option String)
    (hc : env.credsPresent = true) (ha : env.authOk = true)
    (hu : env.currentUser = PyResult.ok u)
    (hp : env.userPlaylists = PyResult.ok []) :
    (fetch_playlists allItems).length ≤ 50 ∧
    (∀ i : Nat, (fetch_playlists allItems)[i]? =
      if i < 50 then allItems[i]?.map mkPlaylistSummary else none) ∧
    (∀ item : PlaylistItem, item.tracks = none →
      mkPlaylistSummary item = ⟨item.id, item.name, 0⟩) ∧
    (∀ item : PlaylistItem, item.tracks = some ⟨none⟩ →
      (mkPlaylistSummary item).tracks_total = 0) ∧
    mainModel env = Outcome.stopped "No playlists found on this account." := by
  refine ⟨?_, ?_, ?_, ?_, ?_⟩
  · unfold fetch_playlists current_user_playlists
    rw [List.length_map, List.length_take]
    omega
  · intro i
    unfold fetch_playlists current_user_playlists
    by_cases hi : i < 50
    · rw [if_pos hi, List.getElem?_map, List.getElem?_take, if_pos hi]
    · rw [if_neg hi]
      apply List.getElem?_eq_none
      rw [List.length_map, List.length_take]
      omega
  · intro item ht
    unfold mkPlaylistSummary
    rw [ht]
    rfl
  · intro item ht
    unfold mkPlaylistSummary
    rw [ht]
    rfl
  · unfold mainModel
    rw [hc, ha, hu, hp]
    rfl

/-- Witness for C6: two concrete items (one with every field missing) and a
concrete zero-playlist run. -/
theorem C6_witness :
    (fetch_playlists itemsEx).length ≤ 50 ∧
    mkPlaylistSummary ⟨none, none, none⟩ = ⟨none, none, 0⟩ ∧
    mainModel envNoPlaylists = Outcome.stopped "No playlists found on this account." := by
  have H := C6_listing_cap_defensive_empty itemsEx envNoPlaylists (some "user")
    rfl rfl rfl rfl
  exact ⟨H.1, H.2.2.1 ⟨none, none, none⟩ rfl, H.2.2.2.2⟩

/-! ## Names-versus-ids asymmetry in the track mapper (claim C7) -/

/-- C7 counterexample: an artist whose id is the empty string has a
non-null id, yet the truthiness filter `if a.get("id")` drops it, so
`artist_ids` is not "exactly the ids of the artists with a non-null id"
and the claimed arity equality fails (0 ≠ 1). -/
theorem C7_counterexample :
    (mkTrack payloadEmptyId).artist_ids ≠ specArtistIds payloadEmptyId ∧
    (mkTrack payloadEmptyId).artist_ids.length ≠
      (payloadEmptyId.artists.filter (fun a => a.id ≠ none)).length := by
  constructor
  · decide
  · decide

/-- C7 (amended): `artist` is the ", "-join of the names of the artists
with a truthy (non-null, non-empty) name, in service order; `artist_ids`
lists, in service order, exactly the ids of the artists with a truthy id;
so an artist with a truthy name but falsy id appears in the name string
but not in `artist_ids`, and the arity of `artist_ids` is the number of
truthy-id artists (possibly zero). -/
theorem C7_artist_ids_truthy (p : TrackPayload) :
    (mkTrack p).artist =
      ", ".intercalate (p.artists.filterMap (fun a => pyTruthy a.name)) ∧
    (mkTrack p).artist_ids =
      (p.artists.filter (fun a => (pyTruthy a.id).isSome)).map
        (fun a => a.id.getD "") ∧
    (mkTrack p).artist_ids.length =
      p.artists.countP (fun a => (pyTruthy a.id).isSome) := by
  refine ⟨rfl, ?_, ?_⟩
  · show p.artists.filterMap (fun a => pyTruthy a.id) = _
    induction p.artists with
    | nil => rfl
    | cons a as ih =>
      cases ha : a.id with
      | none => simpa [pyTruthy, ha] using ih
      | some s =>
        by_cases hs : s = ""
        · simpa [pyTruthy, ha, hs] using ih
        · simpa [pyTruthy, ha, hs] using ih
  · show (p.artists.filterMap (fun a => pyTruthy a.id)).length = _
    induction p.artists with
    | nil => rfl
    | cons a as ih =>
      cases ha : a.id with
      | none => simpa [pyTruthy, ha, List.countP_cons] using ih
      | some s =>
        by_cases hs : s = ""
        · simpa [pyTruthy, ha, hs, List.countP_cons] using ih
        · simpa [pyTruthy, ha, hs, List.countP_cons] using ih

/-! ## Playlist selection resolves to the first matching label (claim C10) -/

theorem selectPlaylist_cons (p : PlaylistSummary) (ps : List PlaylistSummary)
    (choice : String) :
    selectPlaylist (p :: ps) choice =
      if label p = choice then some p else selectPlaylist ps choice := by
  unfold selectPlaylist
  rw [List.map_cons]
  show (match (if label p = choice then some 0
      else (listIndex? choice (ps.map label)).map (· + 1)) with
    | some i => (p :: ps)[i]?
    | none => none) = _
  by_cases hp : label p = choice
  · rw [if_pos hp, if_pos hp]
    simp
  · rw [if_neg hp, if_neg hp]
    cases hfind : listIndex? choice (ps.map label) with
    | none => rfl
    | some i => simp

/-- C10: whenever the chosen label occurs among the rendered labels, the
selection yields the playlist at the least index carrying that label —
for duplicated labels every selection returns the first one, and the later
duplicates can never be selected. -/
theorem C10_selection_picks_first (playlists : List PlaylistSummary)
    (choice : String) (h : ∃ p ∈ playlists, label p = choice) :
    ∃ j : Nat, ∃ q : PlaylistSummary,
      playlists[j]? = some q ∧
      selectPlaylist playlists choice = some q ∧
      label q = choice ∧
      ∀ k : Nat, k < j → ∀ r : PlaylistSummary, playlists[k]? = some r →
        label r ≠ choice := by
  induction playlists with
  | nil =>
    obtain ⟨p, hp, _⟩ := h
    cases hp
  | cons p ps ih =>
    by_cases hp : label p = choice
    · refine ⟨0, p, by simp, ?_, hp, ?_⟩
      · rw [selectPlaylist_cons, if_pos hp]
      · intro k hk
        omega
    · have h2 : ∃ q ∈ ps, label q = choice := by
        obtain ⟨q, hq, he⟩ := h
        rcases List.mem_cons.mp hq with e | hmem
        · exact absurd (e ▸ he) hp
        · exact ⟨q, hmem, he⟩
      obtain ⟨j, q, hjq, hsel, hlq, hmin⟩ := ih h2
      refine ⟨j + 1, q, by simpa using hjq, ?_, hlq, ?_⟩
      · rw [selectPlaylist_cons, if_neg hp]
        exact hsel
      · intro k hk r hr
        cases k with
        | zero =>
          have hrp : p = r := by simpa using hr
          rw [← hrp]
          exact hp
        | succ k2 =>
          exact hmin k2 (by omega) r (by simpa using hr)

/-- Witness for C10: two playlists rendering to the same label; selecting
that label yields the first. -/
theorem C10_witness :
    selectPlaylist dupPlaylists "P (2 tracks)" =
      some ⟨some "first", some "P", 2⟩ := by
  obtain ⟨j, q, hjq, hsel, hlq, hmin⟩ :=
    C10_selection_picks_first dupPlaylists "P (2 tracks)"
      ⟨⟨some "first", some "P", 2⟩, by decide, by decide⟩
  have hj0 : j = 0 := by
    by_contra hne
    exact hmin 0 (by omega) ⟨some "first", some "P", 2⟩ rfl (by decide)
  rw [hj0] at hjq
  have hq : q = ⟨some "first", some "P", 2⟩ := by
    have : some q = some (⟨some "first", some "P", 2⟩ : PlaylistSummary) := by
      rw [← hjq]
      rfl
    exact Option.some_inj.mp this
  rw [← hq]
  exact hsel
